import Mathlib

/-!
Verification of the evaluator core of the lox-base tree-walking interpreter
(src/lox/ast.py, src/lox/ctx.py, src/lox/runtime.py).

The development shallowly embeds the parts of the interpreter the claims are
about:

* the environment chain `Ctx` of src/lox/ctx.py with its lookup
  (`__getitem__`), assignment (`__setitem__`) and declaration (`var_def`)
  operations (mutation of the chain is modelled by returning the updated
  chain);
* the runtime value model of src/lox/runtime.py: classes (`LoxClass`),
  instances (`LoxInstance`), functions/closures (`LoxFunction`), the
  `SuperInstance` proxy and `InitBoundMethod`, together with method
  resolution (`get_method_with_class`), binding (`bind`, `bind_with_class`)
  and constructor calls (`LoxClass.__call__`);
* the pure operator library of src/lox/runtime.py (`add`, `truediv`, `eq`,
  `ne`, `truthy`), modelled over host (Python) values, where numbers are the
  floats the transformer produces for every numeric literal (`float(token)`)
  and are idealised as rationals, and heap objects carry their host object
  identity (Python `==` on `LoxInstance`, which defines no `__eq__`, is
  object identity; a `LoxFunction` dataclass carries a freshly allocated
  `_identity` token, so its dataclass `__eq__` likewise reduces to identity
  of creation);
* the expression/statement evaluator of src/lox/ast.py for the fragment the
  claims exercise (literals, variables, `this`/`super`, attribute reads,
  calls, `+`, expression statements and `return`), written as a family of
  fuel-indexed evaluation functions: the fuel bounds the depth of nested
  host evaluation frames, and exhausting it models exhausting the host
  (CPython) call stack, i.e. `RecursionError`;
* `While.eval` of src/lox/ast.py, whose self-recursive shape is modelled
  with the condition/body sub-evaluations as parameters and the fuel again
  counting nested host `While.eval` frames.
-/

set_option maxHeartbeats 1000000
set_option maxRecDepth 4000

/-! ## Syntax: the node fragment of src/lox/ast.py exercised by the claims -/

/-- A literal value as produced by the transformer (src/lox/transformer.py):
`NUMBER` tokens become host floats (`float(token)`, idealised here as `ℚ`),
`STRING` tokens strings, `BOOL` booleans and `NIL` the nil value. -/
inductive PLit where
  | nilL : PLit
  | boolL (b : Bool) : PLit
  | numL (q : ℚ) : PLit
  | strL (s : String) : PLit
deriving Repr, DecidableEq

/-- The runtime operator installed into a `BinOp` node by the transformer
(`op_handler(op.add)` etc.); the claims only exercise the arithmetic
operators. -/
inductive RtOp where
  | addO : RtOp
  | subO : RtOp
  | mulO : RtOp
  | divO : RtOp
deriving Repr, DecidableEq

/-- Expression nodes (the `Expr` subclasses of src/lox/ast.py used by the
claims): `Literal`, `Var`, `This`, `Super`, `Getattr` (with its optional
chained `subattr`, which the transformer always leaves as `None`), `Call`
and `BinOp`. -/
inductive PExpr where
  | lit (l : PLit) : PExpr
  | var (name : String) : PExpr
  | thisE : PExpr
  | superE : PExpr
  | getattrE (attrMain : PExpr) (attr : String) (subattr : Option String) : PExpr
  | callE (callee : PExpr) (params : List PExpr) : PExpr
  | binop (left right : PExpr) (op : RtOp) : PExpr
deriving Repr

/-- Statement nodes (src/lox/ast.py) occurring in the method and function
bodies the claims exercise: expression statements (`Expression`) and
`Return`. -/
inductive PStmt where
  | exprS (e : PExpr) : PStmt
  | retS (e : PExpr) : PStmt
deriving Repr

/-! ## The environment chain of src/lox/ctx.py

`Ctx` is a scope dictionary plus an optional parent; `Ctx.mk scope None`
is written `CtxC.root scope` and `Ctx.mk scope (some p)` is
`CtxC.node scope p`. A scope dictionary is modelled as an association
list read through `sLookup` (first match, mirroring the unique keys of a
Python dict). -/

/-- A scope dictionary: name-to-value association with unique keys. -/
abbrev ScopeL (V : Type) : Type := List (String × V)

/-- Dictionary read: `scope[key]`/`scope.get(key)`. -/
def sLookup {V : Type} : ScopeL V → String → Option V
  | [], _ => none
  | (k, v) :: t, n => if k = n then some v else sLookup t n

/-- Dictionary membership: `key in scope`. -/
def sMem {V : Type} (s : ScopeL V) (n : String) : Bool :=
  (sLookup s n).isSome

/-- Dictionary write `scope[key] = value`: replaces the existing binding or
inserts a new one. -/
def sSet {V : Type} : ScopeL V → String → V → ScopeL V
  | [], n, v => [(n, v)]
  | (k, w) :: t, n, v => if k = n then (k, v) :: t else (k, w) :: sSet t n v

/-- The environment chain `Ctx(scope, parent)` of src/lox/ctx.py. -/
inductive CtxC (V : Type) where
  | root (scope : List (String × V)) : CtxC V
  | node (scope : List (String × V)) (parent : CtxC V) : CtxC V

/-- The current scope `self.scope`. -/
def CtxC.scopeOf {V : Type} : CtxC V → ScopeL V
  | .root s => s
  | .node s _ => s

/-- The scopes of the chain, innermost first (`Ctx.iter_scopes`). -/
def CtxC.scopes {V : Type} : CtxC V → List (ScopeL V)
  | .root s => [s]
  | .node s p => s :: p.scopes

/-- `Ctx.push` iterated: the context a descendant reaches by pushing the
given scopes (innermost first) on top of `c`. -/
def pushAll {V : Type} : List (ScopeL V) → CtxC V → CtxC V
  | [], c => c
  | s :: rest, c => .node s (pushAll rest c)

/-- `Ctx.is_global` (src/lox/ctx.py lines 130-136): a context whose parent
exists and is the rootmost (builtins) environment; the root itself answers
false. -/
def CtxC.isGlobal {V : Type} : CtxC V → Bool
  | .root _ => false
  | .node _ (.root _) => true
  | .node _ (.node _ _) => false

/-! ## Runtime values of src/lox/runtime.py -/

mutual
/-- A runtime value of the evaluator: the `Value` union of src/lox/ast.py
(`bool | str | float | None | Callable`) together with the callable/object
kinds of src/lox/runtime.py that flow through the evaluator: `LoxFunction`,
`LoxClass`, `LoxInstance`, `SuperInstance` and `InitBoundMethod`. -/
inductive RVal where
  | nilV : RVal
  | boolV (b : Bool) : RVal
  | numV (q : ℚ) : RVal
  | strV (s : String) : RVal
  | fnV (f : LoxFun) : RVal
  | clsV (c : LoxCls) : RVal
  | instV (i : LoxInst) : RVal
  | superV (i : LoxInst) (superclass : LoxCls) : RVal
  | initBoundV (i : LoxInst) (method : LoxFun) : RVal

/-- `LoxFunction` of src/lox/runtime.py: name, parameter names, body and the
captured defining context (`ctx`; the `_identity` token only matters to the
operator library's equality and is modelled there). -/
inductive LoxFun where
  | mk (name : String) (args : List String) (body : List PStmt) (ctx : CtxC RVal) : LoxFun

/-- `LoxClass` of src/lox/runtime.py: name, method table and optional base
class. -/
inductive LoxCls where
  | mk (name : String) (methods : List (String × LoxFun)) (base : Option LoxCls) : LoxCls

/-- `LoxInstance` of src/lox/runtime.py: the back-reference to its class and
the field table. -/
inductive LoxInst where
  | mk (cls : LoxCls) (fields : List (String × RVal)) : LoxInst
end

def LoxFun.args' : LoxFun → List String
  | .mk _ a _ _ => a

def LoxFun.body' : LoxFun → List PStmt
  | .mk _ _ b _ => b

def LoxFun.ctx' : LoxFun → CtxC RVal
  | .mk _ _ _ c => c

def LoxCls.name' : LoxCls → String
  | .mk n _ _ => n

def LoxCls.methods' : LoxCls → List (String × LoxFun)
  | .mk _ m _ => m

def LoxCls.base' : LoxCls → Option LoxCls
  | .mk _ _ b => b

def LoxInst.cls' : LoxInst → LoxCls
  | .mk c _ => c

def LoxInst.fields' : LoxInst → List (String × RVal)
  | .mk _ f => f

/-- The host exceptions that can cross the embedded code: `LoxError` and the
`LoxReturn` control signal of the interpreter, and the Python exception
kinds its code can raise (`KeyError` from `Ctx.__getitem__`/`__setitem__`,
`NameError` from `Var.eval`/`Ctx.var_def`, `ValueError` from the strict
`zip` in `LoxFunction.__call__`, `AttributeError` from host `getattr`,
`RuntimeError` from `_eval_callee`/`This.eval`/`Super.eval`), plus
`stackOverflow` for the host `RecursionError` raised when evaluation nests
deeper than the modelled fuel. -/
inductive RErr where
  | lox (msg : String) : RErr
  | ret (v : RVal) : RErr
  | key (msg : String) : RErr
  | nameE (msg : String) : RErr
  | valueE (msg : String) : RErr
  | attrE (msg : String) : RErr
  | runtimeE (msg : String) : RErr
  | stackOverflow : RErr

/-- Result of evaluating an expression. -/
abbrev RRes := Except RErr RVal

/-! ## Environment operations (src/lox/ctx.py) -/

/-- `Ctx.__getitem__` (src/lox/ctx.py lines 52-59): look the name up in the
current scope, else recurse into the parent, else `KeyError`. -/
def ctxGet : CtxC RVal → String → Except RErr RVal
  | .root s, n =>
    match sLookup s n with
    | some v => .ok v
    | none => .error (.key ("Variável " ++ n ++ " não encontrada"))
  | .node s p, n =>
    match sLookup s n with
    | some v => .ok v
    | none => ctxGet p n

/-- `Ctx.__setitem__` (src/lox/ctx.py lines 61-71): mutate the binding in the
first scope of the chain that defines the name; `KeyError` when no scope
does. Mutation is modelled by returning the updated chain. -/
def ctxSet : CtxC RVal → String → RVal → Except RErr (CtxC RVal)
  | .root s, n, v =>
    if sMem s n then .ok (.root (sSet s n v))
    else .error (.key ("Variável " ++ n ++ " não foi declarada"))
  | .node s p, n, v =>
    if sMem s n then .ok (.node (sSet s n v) p)
    else (ctxSet p n v).map (fun p' => .node s p')

/-- `Ctx.var_def` (src/lox/ctx.py lines 79-87): error when the name already
exists in the current scope and the context is not the global one, else
insert into the current scope. -/
def ctxVarDef : CtxC RVal → String → RVal → Except RErr (CtxC RVal)
  | .root s, n, v =>
    if sMem s n ∧ ¬ (CtxC.root s : CtxC RVal).isGlobal then
      .error (.nameE ("Variável " ++ n ++ " já foi declarada neste escopo"))
    else .ok (.root (sSet s n v))
  | .node s p, n, v =>
    if sMem s n ∧ ¬ (CtxC.node s p).isGlobal then
      .error (.nameE ("Variável " ++ n ++ " já foi declarada neste escopo"))
    else .ok (.node (sSet s n v) p)

/-! ## Method resolution and binding (src/lox/runtime.py) -/

/-- `LoxClass.get_method_with_class` (src/lox/runtime.py lines 73-83): the
method and its defining class, found in the class itself or recursively in
its base; `LoxError` "Undefined property ..." when the chain is exhausted. -/
def getMethodWithClass : LoxCls → String → Except RErr (LoxFun × LoxCls)
  | .mk n ms b, name =>
    match sLookup ms name with
    | some m => .ok (m, .mk n ms b)
    | none =>
      match b with
      | some bc => getMethodWithClass bc name
      | none => .error (.lox ("Undefined property '" ++ name ++ "'."))

/-- `LoxClass.get_method` (src/lox/runtime.py lines 67-71). -/
def getMethod (c : LoxCls) (name : String) : Except RErr LoxFun :=
  (getMethodWithClass c name).map (fun p => p.1)

/-- `LoxFunction.bind_with_class` (src/lox/runtime.py lines 237-255): a new
`LoxFunction` whose context is the captured context extended by a scope
binding `this` to the object and, when the defining class has a base,
`super` to a `SuperInstance` over that base. -/
def bindWithClass (f : LoxFun) (obj : LoxInst) (definingClass : LoxCls) : LoxFun :=
  match f with
  | .mk n as b ctx =>
    let vars : List (String × RVal) :=
      ("this", .instV obj) ::
        (match definingClass.base' with
         | some bc => [("super", .superV obj bc)]
         | none => [])
    .mk n as b (.node vars ctx)

/-- `LoxFunction.bind` (src/lox/runtime.py lines 226-235): binds using the
object's own (dynamic) class as the class for `super` resolution — the
source comments this as "use the object's class for super resolution". -/
def bindFn (f : LoxFun) (obj : LoxInst) : LoxFun :=
  bindWithClass f obj obj.cls'

/-- `SuperInstance.get` / `SuperInstance.__getattr__` (src/lox/runtime.py
lines 273-282): resolve the method in the stored superclass and bind it to
the original instance via `LoxFunction.bind`. -/
def superGet (i : LoxInst) (superclass : LoxCls) (name : String) : RRes := do
  let m ← getMethod superclass name
  .ok (.fnV (bindFn m i))

/-- `LoxInstance.get` (src/lox/runtime.py lines 126-143): field table first;
else method-chain lookup, returning an `InitBoundMethod` for `init` and a
method bound via `bind_with_class` otherwise; a failed method lookup is
re-raised as `LoxError` "Undefined property ...". -/
def instGet (i : LoxInst) (name : String) : RRes :=
  match sLookup i.fields' name with
  | some v => .ok v
  | none =>
    match getMethodWithClass i.cls' name with
    | .ok (m, definingClass) =>
      if name = "init" then .ok (.initBoundV i m)
      else .ok (.fnV (bindWithClass m i definingClass))
    | .error _ => .error (.lox ("Undefined property '" ++ name ++ "'."))

/-- The host `getattr` fallback used by `Getattr.eval` and
`Call._eval_callee` (src/lox/ast.py) for objects that are not
`LoxInstance`s, modelled for the object kinds and attribute names the
embedded programs reach: a `SuperInstance` delegates through its
`__getattr__` to `SuperInstance.get`; a `LoxClass` is a dataclass whose
`name` attribute is its name string; every other lookup raises the host
`AttributeError`. -/
def hostGetattr : RVal → String → RRes
  | .superV i sc, name => superGet i sc name
  | .clsV c, name =>
    if name = "name" then .ok (.strV c.name')
    else .error (.attrE ("LoxClass object has no attribute " ++ name))
  | _, name => .error (.attrE ("object has no attribute " ++ name))

/-- `runtime.truthy` (src/lox/runtime.py lines 351-357): only `nil` and
`false` are falsey. -/
def rtTruthy : RVal → Bool
  | .nilV => false
  | .boolV false => false
  | _ => true

/-- Whether a value is a host boolean (`isinstance(x, bool)`). -/
def isBoolRV : RVal → Bool
  | .boolV _ => true
  | _ => false

/-- `runtime.add` (src/lox/runtime.py lines 361-371) on evaluator values:
booleans are rejected first, then two numbers add, two strings
concatenate, anything else is a `LoxError`. -/
def rtAdd (l r : RVal) : RRes :=
  if isBoolRV l || isBoolRV r then
    .error (.lox "Operands must be two numbers or two strings.")
  else
    match l, r with
    | .numV a, .numV b => .ok (.numV (a + b))
    | .strV a, .strV b => .ok (.strV (a ++ b))
    | _, _ => .error (.lox "Operands must be two numbers or two strings.")

/-- `runtime.sub` (src/lox/runtime.py lines 374-382) on evaluator values. -/
def rtSub (l r : RVal) : RRes :=
  if isBoolRV l || isBoolRV r then .error (.lox "Operands must be numbers.")
  else
    match l, r with
    | .numV a, .numV b => .ok (.numV (a - b))
    | _, _ => .error (.lox "Operands must be numbers.")

/-- `runtime.mul` (src/lox/runtime.py lines 385-393) on evaluator values. -/
def rtMul (l r : RVal) : RRes :=
  if isBoolRV l || isBoolRV r then .error (.lox "Operands must be numbers.")
  else
    match l, r with
    | .numV a, .numV b => .ok (.numV (a * b))
    | _, _ => .error (.lox "Operands must be numbers.")

/-- `runtime.truediv` (src/lox/runtime.py lines 396-406) on evaluator
values: division by exactly zero raises `LoxError` "Divisão por zero.". -/
def rtDiv (l r : RVal) : RRes :=
  if isBoolRV l || isBoolRV r then .error (.lox "Operands must be numbers.")
  else
    match l, r with
    | .numV a, .numV b =>
      if b = 0 then .error (.lox "Divisão por zero.") else .ok (.numV (a / b))
    | _, _ => .error (.lox "Operands must be numbers.")

/-- Dispatch of the operator stored in a `BinOp` node. -/
def rtApplyOp : RtOp → RVal → RVal → RRes
  | .addO, l, r => rtAdd l r
  | .subO, l, r => rtSub l r
  | .mulO, l, r => rtMul l r
  | .divO, l, r => rtDiv l r

/-- `Literal.eval` (src/lox/ast.py lines 103-115): a literal evaluates to
its embedded value. -/
def litVal : PLit → RVal
  | .nilL => .nilV
  | .boolL b => .boolV b
  | .numL q => .numV q
  | .strL s => .strV s

/-- The class object built by `Class.eval` (src/lox/ast.py lines 585-605):
each method node becomes a `runtime.LoxFunction` closing over the
class-declaration context, and the class is assembled from the name, the
method table and the optional superclass value. -/
def classDeclToVal (name : String) (methods : List (String × List String × List PStmt))
    (base : Option LoxCls) (ctx : CtxC RVal) : LoxCls :=
  .mk name (methods.map (fun m => (m.1, LoxFun.mk m.1 m.2.1 m.2.2 ctx))) base

/-! ## The fuel-indexed evaluator (src/lox/ast.py)

Each evaluation method of the syntax nodes (`Expr.eval`, `Stmt.eval`,
`Call._eval_callee`), and each call of a runtime callable
(`LoxFunction.__call__`, `LoxClass.__call__`, `InitBoundMethod.__call__`),
is a host (CPython) stack frame. `REvals` bundles these evaluation
functions; `stepEval` is one frame of each, delegating every nested
evaluation to the bundle one fuel level below; `evals fuel` therefore
evaluates exactly like the source as long as the nesting depth stays below
`fuel`, and answers `RErr.stackOverflow` (the host `RecursionError`) when
the nesting exhausts the fuel. -/

/-- The bundle of evaluation functions at one fuel level. -/
structure REvals where
  expr : PExpr → CtxC RVal → RRes
  callee : PExpr → CtxC RVal → RRes
  argsE : List PExpr → CtxC RVal → Except RErr (List RVal)
  callV : RVal → List RVal → RRes
  stmts : List PStmt → CtxC RVal → Except RErr Unit
  stmtE : PStmt → CtxC RVal → Except RErr Unit

/-- Fuel exhausted: every evaluation is a host `RecursionError`. -/
def zeroEval : REvals where
  expr := fun _ _ => .error .stackOverflow
  callee := fun _ _ => .error .stackOverflow
  argsE := fun _ _ => .error .stackOverflow
  callV := fun _ _ => .error .stackOverflow
  stmts := fun _ _ => .error .stackOverflow
  stmtE := fun _ _ => .error .stackOverflow

/-- One host frame of each evaluation method of src/lox/ast.py and of the
callables of src/lox/runtime.py, nested evaluations taken from `E`:

* `expr`: `Literal.eval`, `Var.eval` (`KeyError` becomes the `NameError`
  "variável ... não existe!"), `This.eval`/`Super.eval` (`KeyError` becomes
  a `RuntimeError`), `Getattr.eval` (instances through `LoxInstance.get`,
  anything else through host `getattr`, then the optional `subattr` step),
  `Call.eval` (callee, then arguments left to right, then the invocation)
  and `BinOp.eval` (left, right, then the installed operator);
* `callee`: `Call._eval_callee` — a `Var` callee reads the context directly
  (a `KeyError` propagates), a `Getattr` callee repeats the attribute
  lookup ignoring `subattr`, a `Call` callee is evaluated as an expression,
  anything else is a `RuntimeError`;
* `callV`: invoking a value — a `LoxFunction` binds its parameters to the
  arguments (the strict `zip` raises `ValueError` on an arity mismatch),
  runs its body in a child context of its closure and catches `LoxReturn`
  (falling off the end yields nil); a `LoxClass` allocates an instance,
  tries `get_method("init")` and the bound init call, catches `LoxError`
  (re-raised as "Expected 0 arguments but got N." when arguments were
  passed) and yields the instance; an `InitBoundMethod` runs the bound
  init and yields the instance; anything else is not callable;
* `stmts`/`stmtE`: statement-list execution, expression statements and
  `Return` (which raises the `LoxReturn` signal). -/
def stepEval (E : REvals) : REvals where
  expr := fun e ctx =>
    match e with
    | .lit l => .ok (litVal l)
    | .var n =>
      match ctxGet ctx n with
      | .ok v => .ok v
      | .error (.key _) => .error (.nameE ("variável " ++ n ++ " não existe!"))
      | .error err => .error err
    | .thisE =>
      match ctxGet ctx "this" with
      | .ok v => .ok v
      | .error (.key _) => .error (.runtimeE "this not found in context")
      | .error err => .error err
    | .superE =>
      match ctxGet ctx "super" with
      | .ok v => .ok v
      | .error (.key _) => .error (.runtimeE "super not found in context")
      | .error err => .error err
    | .getattrE m a s => do
      let obj ← E.expr m ctx
      let v ← match obj with
        | .instV i => instGet i a
        | _ => hostGetattr obj a
      match s with
      | none => .ok v
      | some sub =>
        match v with
        | .instV i => instGet i sub
        | _ => hostGetattr v sub
    | .callE c ps => do
      let fv ← E.callee c ctx
      let as ← E.argsE ps ctx
      E.callV fv as
    | .binop l r op => do
      let lv ← E.expr l ctx
      let rv ← E.expr r ctx
      rtApplyOp op lv rv
  callee := fun c ctx =>
    match c with
    | .var n => ctxGet ctx n
    | .getattrE m a _ => do
      let obj ← E.expr m ctx
      match obj with
      | .instV i => instGet i a
      | _ => hostGetattr obj a
    | .callE c2 ps => E.expr (.callE c2 ps) ctx
    | _ => .error (.runtimeE "Unsupported callee type")
  argsE := fun ps ctx =>
    match ps with
    | [] => .ok []
    | p :: rest => do
      let v ← E.expr p ctx
      let vs ← E.argsE rest ctx
      .ok (v :: vs)
  callV := fun v args =>
    match v with
    | .fnV f =>
      if args.length = f.args'.length then
        match E.stmts f.body' (.node (f.args'.zip args) f.ctx') with
        | .ok _ => .ok .nilV
        | .error (.ret rv) => .ok rv
        | .error e => .error e
      else .error (.valueE "zip() argument lengths differ")
    | .clsV c =>
      let inst : LoxInst := .mk c []
      match (do
        let m ← getMethod c "init"
        E.callV (.fnV (bindFn m inst)) args : RRes) with
      | .ok _ => .ok (.instV inst)
      | .error (.lox _) =>
        if args.isEmpty then .ok (.instV inst)
        else .error (.lox ("Expected 0 arguments but got " ++ toString args.length ++ "."))
      | .error e => .error e
    | .initBoundV i m => do
      let _ ← E.callV (.fnV (bindFn m i)) args
      .ok (.instV i)
    | _ => .error (.runtimeE "object is not callable")
  stmts := fun ss ctx =>
    match ss with
    | [] => .ok ()
    | s :: rest => do
      E.stmtE s ctx
      E.stmts rest ctx
  stmtE := fun s ctx =>
    match s with
    | .exprS e => do
      let _ ← E.expr e ctx
      .ok ()
    | .retS e => do
      let v ← E.expr e ctx
      .error (.ret v)

/-- The evaluator with `fuel` nested host frames available. -/
def evals : Nat → REvals
  | 0 => zeroEval
  | f + 1 => stepEval (evals f)

/-- `While.eval` (src/lox/ast.py lines 484-499): evaluate the condition and,
if truthy, evaluate the body and then recurse into `self.eval(ctx)` — one
more host `While.eval` frame per iteration. The condition and body
sub-evaluations are abstracted as functions of the mutated state; the fuel
is the number of host `While.eval` frames available, and exhausting it is
the host `RecursionError`. -/
def whileEvalRec {S : Type} (cond : S → RVal) (body : S → S) : Nat → S → Except RErr S
  | 0, _ => .error .stackOverflow
  | f + 1, s =>
    if rtTruthy (cond s) then whileEvalRec cond body f (body s) else .ok s

/-! ## The pure operator library over host values (src/lox/runtime.py)

The operator functions are pure functions over host (Python) values. The
transformer turns every numeric literal into a host float (`float(token)`,
idealised as `ℚ`), so the only numeric runtime kind is the float. Heap
objects carry their host object identity: Python `==` on a `LoxInstance`
(which defines no `__eq__`) compares identity, and on a `LoxFunction`
dataclass it compares all fields including the freshly allocated
`_identity` token, which again only two references to the same creation
share. -/

/-- A host value as seen by the operator library. `instP` records the
instance's class name, its field table and its host object identity;
`fnP` records a function's `_identity` token. -/
inductive PyVal where
  | noneP : PyVal
  | boolP (b : Bool) : PyVal
  | numP (q : ℚ) : PyVal
  | strP (s : String) : PyVal
  | instP (clsName : String) (fields : List (String × PyVal)) (oid : Nat) : PyVal
  | fnP (oid : Nat) : PyVal

/-- The host runtime type (`type(x)`) of a value. -/
inductive PyTy where
  | noneT : PyTy
  | boolT : PyTy
  | floatT : PyTy
  | strT : PyTy
  | instT : PyTy
  | funT : PyTy
deriving DecidableEq

def pyType : PyVal → PyTy
  | .noneP => .noneT
  | .boolP _ => .boolT
  | .numP _ => .floatT
  | .strP _ => .strT
  | .instP _ _ _ => .instT
  | .fnP _ => .funT

/-- Python `==` on two values of the same runtime type: value equality for
`None`, booleans, floats and strings; object identity for instances (no
`__eq__` on `LoxInstance`) and for functions (the dataclass `__eq__`
compares the `_identity` token). -/
def pyEqSame : PyVal → PyVal → Bool
  | .noneP, .noneP => true
  | .boolP a, .boolP b => a == b
  | .numP a, .numP b => decide (a = b)
  | .strP a, .strP b => a == b
  | .instP _ _ i, .instP _ _ j => i == j
  | .fnP i, .fnP j => i == j
  | _, _ => false

namespace OpLib

/-- `runtime.eq` (src/lox/runtime.py lines 465-470): values of different
runtime types are unequal without coercion; otherwise host `==`. -/
def eq (left right : PyVal) : Bool :=
  if pyType left ≠ pyType right then false else pyEqSame left right

/-- `runtime.ne` (src/lox/runtime.py lines 473-475). -/
def ne (left right : PyVal) : Bool :=
  ! eq left right

/-- `isinstance(x, bool)` on a host value. -/
def isBool : PyVal → Bool
  | .boolP _ => true
  | _ => false

/-- `isinstance(x, (int, float))` on a host value (a separate check in the
source rules booleans out first, since `bool` subclasses `int`). -/
def isNum : PyVal → Bool
  | .numP _ => true
  | _ => false

/-- `isinstance(x, str)` on a host value. -/
def isStr : PyVal → Bool
  | .strP _ => true
  | _ => false

/-- `runtime.add` (src/lox/runtime.py lines 361-371): booleans are rejected
first; two numbers add; two strings concatenate; any other combination
raises `LoxError` "Operands must be two numbers or two strings.". -/
def add (left right : PyVal) : Except RErr PyVal :=
  if isBool left || isBool right then
    .error (.lox "Operands must be two numbers or two strings.")
  else
    match left, right with
    | .numP a, .numP b => .ok (.numP (a + b))
    | .strP a, .strP b => .ok (.strP (a ++ b))
    | _, _ => .error (.lox "Operands must be two numbers or two strings.")

/-- `runtime.truediv` (src/lox/runtime.py lines 396-406): booleans are
rejected first; for two numbers a zero divisor raises `LoxError`
"Divisão por zero." and otherwise the quotient is returned; any other
combination raises `LoxError` "Operands must be numbers.". -/
def truediv (left right : PyVal) : Except RErr PyVal :=
  if isBool left || isBool right then
    .error (.lox "Operands must be numbers.")
  else
    match left, right with
    | .numP a, .numP b =>
      if b = 0 then .error (.lox "Divisão por zero.") else .ok (.numP (a / b))
    | _, _ => .error (.lox "Operands must be numbers.")

end OpLib

/-! ## The multi-level inheritance example

The spec's depth-correctness program:

  class A { greet() { return "A"; } }
  class B < A { greet() { return super.greet() + "B"; } }
  class C < B { greet() { return super.greet() + "C"; } }
  C().greet()

The class objects are assembled exactly as `Class.eval` does. The method
bodies reference only `this`/`super`, so the class-declaration closure
context is taken as the root context. -/

def ctx0 : CtxC RVal := .root []

/-- Body of `A.greet`: `return "A";`. -/
def bodyA : List PStmt := [.retS (.lit (.strL "A"))]

/-- The expression `super.greet()` (the transformer builds
`Call(Getattr(Super(), "greet", None), [])`). -/
def superGreetCall : PExpr := .callE (.getattrE .superE "greet" none) []

/-- Body of `B.greet`: `return super.greet() + "B";`. -/
def bodyB : List PStmt := [.retS (.binop superGreetCall (.lit (.strL "B")) .addO)]

/-- Body of `C.greet`: `return super.greet() + "C";`. -/
def bodyC : List PStmt := [.retS (.binop superGreetCall (.lit (.strL "C")) .addO)]

def clsA : LoxCls := classDeclToVal "A" [("greet", [], bodyA)] none ctx0

def clsB : LoxCls := classDeclToVal "B" [("greet", [], bodyB)] (some clsA) ctx0

def clsC : LoxCls := classDeclToVal "C" [("greet", [], bodyC)] (some clsB) ctx0

/-- The method `B.greet` as stored in `clsB`. -/
def greetB : LoxFun := .mk "greet" [] bodyB ctx0

/-- The instance allocated by `C()`. -/
def instC : LoxInst := .mk clsC []

/-- `B.greet` bound by `SuperInstance.get`: `LoxFunction.bind` resolves
`super` against the instance's dynamic class `C`, so the injected `super`
again points at `C`'s base `B`. -/
def boundB : LoxFun := bindWithClass greetB instC clsC

/-- The global context after the three class declarations. -/
def ctxABC : CtxC RVal :=
  .node [("A", .clsV clsA), ("B", .clsV clsB), ("C", .clsV clsC)] (.root [])

/-- The program expression `C().greet()`. -/
def cGreetProgram : PExpr :=
  .callE (.getattrE (.callE (.var "C") []) "greet" none) []

/-- The self-sustaining loop behind C1: invoking the `super`-bound `B.greet`
resolves `super.greet` to `B.greet` again (bound the same way), because
`SuperInstance.get` binds through `LoxFunction.bind`, which takes the
dynamic class `C` — whose base is `B` — as the class for `super`
resolution. Hence the invocation exhausts any amount of fuel. -/
theorem loopBoundB : ∀ fuel, (evals fuel).callV (.fnV boundB) [] = .error .stackOverflow := by
  intro fuel
  induction fuel using Nat.strong_induction_on with
  | _ fuel ih =>
    match fuel with
    | 0 => rfl
    | 1 => rfl
    | 2 => rfl
    | 3 => rfl
    | 4 => rfl
    | 5 => rfl
    | 6 => rfl
    | (n+7) =>
      have h := ih (n+2) (by omega)
      have hcallee : (evals (n+2)).callee (PExpr.getattrE .superE "greet" none)
          (CtxC.node [] boundB.ctx') = .ok (.fnV boundB) := rfl
      have hargsE : (evals (n+2)).argsE [] (CtxC.node [] boundB.ctx') = .ok ([] : List RVal) := rfl
      rw [show evals (n+7)
            = stepEval (stepEval (stepEval (stepEval (stepEval (evals (n+2)))))) from rfl]
      simp only [stepEval, LoxFun.args', LoxFun.body', LoxFun.ctx', boundB, bindWithClass,
        greetB, bodyB, clsC, clsB, clsA, classDeclToVal, instC, ctx0, superGreetCall,
        LoxCls.base', LoxInst.cls', List.zipWith, List.length, List.zip, List.map,
        litVal] at hcallee hargsE h ⊢
      simp only [hcallee, hargsE]
      simp only [bind, Except.instMonad, Except.bind]
      rw [h]
      rfl

/-- C1: the claim says that in the A/B/C chain each `super` resolves
relative to the defining class, so `C().greet()` terminates and returns
"ABC". The code instead rebinds `super` through the instance's dynamic
class (`SuperInstance.get` uses `LoxFunction.bind`), so `super.greet`
inside `B.greet` resolves to `B.greet` itself and the evaluation consumes
every amount of fuel (host stack) without ever producing a value: the run
ends in the host `RecursionError`, never in "ABC". -/
theorem C1_super_chain_never_returns :
    ∀ fuel, (evals fuel).expr cGreetProgram ctxABC = .error .stackOverflow := by
  intro fuel
  match fuel with
  | 0 => rfl
  | 1 => rfl
  | 2 => rfl
  | 3 => rfl
  | 4 => rfl
  | 5 => rfl
  | 6 => rfl
  | 7 => rfl
  | (n+8) =>
    have h := loopBoundB (n+2)
    have key : (evals (n+3)).expr superGreetCall (CtxC.node [] boundB.ctx')
        = .error .stackOverflow :=
      (rfl : (evals (n+3)).expr superGreetCall (CtxC.node [] boundB.ctx')
          = (evals (n+2)).callV (.fnV boundB) []).trans h
    have hcallee : (evals (n+7)).callee
        (PExpr.getattrE (PExpr.callE (.var "C") []) "greet" none) ctxABC
        = .ok (.fnV (bindWithClass (.mk "greet" [] bodyC ctx0) instC clsC)) := rfl
    have hargsE : (evals (n+7)).argsE [] ctxABC = .ok ([] : List RVal) := rfl
    rw [show evals (n+8) = stepEval (evals (n+7)) from rfl]
    simp only [stepEval, cGreetProgram]
    rw [hcallee, hargsE]
    simp only [bind, Except.instMonad, Except.bind]
    rw [show evals (n+7)
          = stepEval (stepEval (stepEval (stepEval (evals (n+3))))) from rfl]
    simp only [stepEval, LoxFun.args', LoxFun.body', LoxFun.ctx', boundB, bindWithClass,
      greetB, bodyA, bodyB, bodyC, clsC, clsB, clsA, classDeclToVal, instC, ctx0,
      superGreetCall, LoxCls.base', LoxInst.cls', List.zipWith, List.length, List.zip,
      List.map, litVal] at key ⊢
    rw [key]
    rfl

/-! ## Constructor calls (`LoxClass.__call__`, src/lox/runtime.py lines 51-65) -/

/-- C4: for a class whose chain defines `init`, a constructor call allocates
a fresh instance, invokes the bound `init` with the call arguments and —
whenever that invocation completes with any value `v` — discards `v` and
yields the allocated instance itself (with its default empty field
state). -/
theorem C4_init_call_yields_instance (fuel : Nat) (c : LoxCls) (args : List RVal)
    (m : LoxFun) (v : RVal)
    (hinit : getMethod c "init" = .ok m)
    (hrun : (evals fuel).callV (.fnV (bindFn m (.mk c []))) args = .ok v) :
    (evals (fuel + 1)).callV (.clsV c) args = .ok (.instV (.mk c [])) := by
  rw [show evals (fuel + 1) = stepEval (evals fuel) from rfl]
  simp only [stepEval]
  rw [hinit]
  simp only [bind, Except.instMonad, Except.bind]
  rw [hrun]

/-- The class `D` with `init() { return; }` (the transformer turns a bare
`return;` into `Return(Literal(None))`). -/
def initReturnNil : List PStmt := [.retS (.lit .nilL)]

def clsD : LoxCls := classDeclToVal "D" [("init", [], initReturnNil)] none ctx0

/-- Witness for C4: constructing `D` with `init(){ return; }` yields the
fresh instance with empty fields, the `nil` returned by the init body being
discarded. -/
theorem C4_init_call_yields_instance_witness :
    (evals 5).callV (.clsV clsD) [] = .ok (.instV (.mk clsD [])) :=
  C4_init_call_yields_instance 4 clsD [] (.mk "init" [] initReturnNil ctx0) .nilV rfl rfl

/-- C10: when the bound `init` invocation raises a `LoxError` (for example
an undefined-property access in its body), `LoxClass.__call__` catches it:
with zero constructor arguments the error is discarded and the fresh
instance returned; with arguments the original error is replaced by the
arity error "Expected 0 arguments but got N.". -/
theorem C10_init_error_swallowed (fuel : Nat) (c : LoxCls) (args : List RVal)
    (m : LoxFun) (msg : String)
    (hinit : getMethod c "init" = .ok m)
    (hrun : (evals fuel).callV (.fnV (bindFn m (.mk c []))) args = .error (.lox msg)) :
    (evals (fuel + 1)).callV (.clsV c) args =
      if args.isEmpty then .ok (.instV (.mk c []))
      else .error (.lox ("Expected 0 arguments but got " ++ toString args.length ++ ".")) := by
  rw [show evals (fuel + 1) = stepEval (evals fuel) from rfl]
  simp only [stepEval]
  rw [hinit]
  simp only [bind, Except.instMonad, Except.bind]
  rw [hrun]

/-- The body `this.missing;` whose evaluation raises the `LoxError`
"Undefined property 'missing'.". -/
def initFailBody : List PStmt := [.exprS (.getattrE .thisE "missing" none)]

/-- A class whose zero-parameter `init` raises a `LoxError`. -/
def clsE0 : LoxCls := classDeclToVal "E0" [("init", [], initFailBody)] none ctx0

/-- A class whose one-parameter `init` raises a `LoxError`. -/
def clsE1 : LoxCls := classDeclToVal "E1" [("init", ["a"], initFailBody)] none ctx0

/-- Witness for C10: with zero arguments the failing init is swallowed and
the instance returned; with one argument the init body's error is replaced
by "Expected 0 arguments but got 1.". -/
theorem C10_init_error_swallowed_witness :
    (evals 6).callV (.clsV clsE0) [] = .ok (.instV (.mk clsE0 [])) ∧
    (evals 6).callV (.clsV clsE1) [.numV 1] =
      .error (.lox "Expected 0 arguments but got 1.") :=
  ⟨C10_init_error_swallowed 5 clsE0 [] (.mk "init" [] initFailBody ctx0)
      "Undefined property 'missing'." rfl rfl,
    C10_init_error_swallowed 5 clsE1 [.numV 1] (.mk "init" ["a"] initFailBody ctx0)
      "Undefined property 'missing'." rfl rfl⟩

/-! ## Attribute reads (`Getattr.eval`, src/lox/ast.py lines 313-338) -/

/-- Whether a value is a `LoxInstance` (`isinstance(obj, LoxInstance)`). -/
def isInstRV : RVal → Bool
  | .instV _ => true
  | _ => false

/-- Binding an `Except` result through `pure` is the identity. -/
theorem exceptBindOk (x : RRes) : Except.bind x (fun v => Except.ok v) = x := by
  cases x <;> rfl

/-- C5 counterexample: the claim says every attribute read on a non-instance
raises an "only instances have properties"-style error, but `Getattr.eval`
falls back to host `getattr` for non-instances, and reading `name` on a
class object (a dataclass with a `name` field) succeeds, returning the
class's name string. -/
theorem C5_nonInstance_getattr_succeeds :
    (evals 2).expr (.getattrE (.var "A") "name" none)
      (.node [("A", .clsV clsA)] (.root [])) = .ok (.strV "A") := rfl

/-- C5 amended: an attribute read on an `Instance` consults the field table
first and otherwise the class method chain, producing a bound method (or an
`InitBoundMethod` for `init`); an attribute read on any other value is
delegated to host `getattr`, which is not uniformly an "only instances have
properties" error — on a class object the `name` attribute succeeds with
the class's name, while values without the attribute raise a host
`AttributeError`, not a `LoxError`. -/
theorem C5_getattr_dispatch :
    (∀ fuel e a ctx i, (evals fuel).expr e ctx = .ok (.instV i) →
      (evals (fuel + 1)).expr (.getattrE e a none) ctx = instGet i a) ∧
    (∀ fuel e a ctx v, (evals fuel).expr e ctx = .ok v → isInstRV v = false →
      (evals (fuel + 1)).expr (.getattrE e a none) ctx = hostGetattr v a) ∧
    (∀ i a v, sLookup i.fields' a = some v → instGet i a = .ok v) ∧
    (∀ i a m d, sLookup i.fields' a = none → getMethodWithClass i.cls' a = .ok (m, d) →
      a ≠ "init" → instGet i a = .ok (.fnV (bindWithClass m i d))) ∧
    (∀ c, hostGetattr (.clsV c) "name" = .ok (.strV c.name')) := by
  refine ⟨?_, ?_, ?_, ?_, ?_⟩
  · intro fuel e a ctx i hv
    rw [show evals (fuel + 1) = stepEval (evals fuel) from rfl]
    simp only [stepEval]
    rw [hv]
    simp only [bind, Except.instMonad, Except.bind]
    exact exceptBindOk (instGet i a)
  · intro fuel e a ctx v hv hni
    rw [show evals (fuel + 1) = stepEval (evals fuel) from rfl]
    simp only [stepEval]
    rw [hv]
    simp only [bind, Except.instMonad, Except.bind]
    cases v
    case instV i => simp [isInstRV] at hni
    case clsV c => rcases hx : hostGetattr (RVal.clsV c) a with e | w <;> simp [hx]
    case superV i sc => rcases hx : hostGetattr (RVal.superV i sc) a with e | w <;> simp [hx]
    all_goals rfl
  · intro i a v h
    simp [instGet, h]
  · intro i a m d h1 h2 h3
    simp [instGet, h1, h2, h3]
  · intro c
    rfl

/-- Witness for the amended C5: the instance path (field hit, method-chain
hit), the class-object `name` success and the host fallback on a number,
each obtained from `C5_getattr_dispatch` at concrete inputs. -/
theorem C5_getattr_dispatch_witness :
    (evals 3).expr (.getattrE (.callE (.var "A") []) "greet" none)
        (.node [("A", .clsV clsA)] (.root [])) = instGet (.mk clsA []) "greet" ∧
    instGet (.mk clsA [("hp", .numV 7)]) "hp" = .ok (.numV 7) ∧
    instGet (.mk clsA []) "greet" =
      .ok (.fnV (bindWithClass (.mk "greet" [] bodyA ctx0) (.mk clsA []) clsA)) ∧
    hostGetattr (.clsV clsA) "name" = .ok (.strV "A") ∧
    (evals 2).expr (.getattrE (.lit (.numL 1)) "foo" none) (.root []) =
      hostGetattr (.numV 1) "foo" :=
  ⟨C5_getattr_dispatch.1 2 (.callE (.var "A") []) "greet"
      (.node [("A", .clsV clsA)] (.root [])) (.mk clsA []) rfl,
    C5_getattr_dispatch.2.2.1 (.mk clsA [("hp", .numV 7)]) "hp" (.numV 7) rfl,
    C5_getattr_dispatch.2.2.2.1 (.mk clsA []) "greet" (.mk "greet" [] bodyA ctx0) clsA
      rfl rfl (by decide),
    C5_getattr_dispatch.2.2.2.2 clsA,
    C5_getattr_dispatch.2.1 1 (.lit (.numL 1)) "foo" (.root []) (.numV 1) rfl rfl⟩

/-! ## Environment chain properties (src/lox/ctx.py) -/

theorem sSet_self {V : Type} (s : ScopeL V) (n : String) (v : V) :
    sLookup (sSet s n v) n = some v := by
  induction s with
  | nil => simp [sSet, sLookup]
  | cons kv t ih =>
    obtain ⟨k, w⟩ := kv
    by_cases h : k = n
    · simp [sSet, sLookup, h]
    · simp [sSet, sLookup, h, ih]

theorem sSet_other {V : Type} (s : ScopeL V) (n m : String) (v : V) (h : m ≠ n) :
    sLookup (sSet s n v) m = sLookup s m := by
  induction s with
  | nil =>
    simp only [sSet, sLookup]
    rw [if_neg (fun hh => h hh.symm)]
  | cons kv t ih =>
    obtain ⟨k, w⟩ := kv
    by_cases hk : k = n
    · subst hk
      simp only [sSet, if_pos rfl, sLookup]
      rw [if_neg (fun hh => h hh.symm), if_neg (fun hh => h hh.symm)]
    · simp only [sSet, if_neg hk, sLookup]
      by_cases hkm : k = m
      · rw [if_pos hkm, if_pos hkm]
      · rw [if_neg hkm, if_neg hkm, ih]

theorem sMem_false_lookup {V : Type} (s : ScopeL V) (n : String) (h : sMem s n = false) :
    sLookup s n = none := by
  unfold sMem at h
  cases hl : sLookup s n
  · rfl
  · rw [hl] at h
    simp at h

/-- Lookup from a descendant context that does not itself bind the name
walks down to the base context. -/
theorem pushAll_get (ds : List (ScopeL RVal)) (c : CtxC RVal) (n : String)
    (h : ∀ t ∈ ds, sLookup t n = none) :
    ctxGet (pushAll ds c) n = ctxGet c n := by
  induction ds with
  | nil => rfl
  | cons s rest ih =>
    have hs : sLookup s n = none := h s (by simp)
    simp only [pushAll, ctxGet, hs]
    exact ih (fun t ht => h t (by simp [ht]))

/-- `Ctx.__getitem__` returns the binding of the innermost scope of the
chain that defines the name, and a `KeyError` when none does. -/
theorem ctxGet_char (c : CtxC RVal) (n : String) :
    ctxGet c n =
      match c.scopes.findSome? (fun s => sLookup s n) with
      | some v => .ok v
      | none => .error (.key ("Variável " ++ n ++ " não encontrada")) := by
  induction c with
  | root s => cases h : sLookup s n <;> simp [ctxGet, CtxC.scopes, List.findSome?, h]
  | node s p ih => cases h : sLookup s n <;> simp [ctxGet, CtxC.scopes, List.findSome?, h, ih]

/-- The success behaviour of `Ctx.__setitem__`: the updated chain differs
from the original exactly at the innermost scope defining the name, the
name now reads back as the assigned value, and every other name reads as
before. -/
theorem ctxSet_ok (c : CtxC RVal) (n : String) (v : RVal) (c' : CtxC RVal)
    (h : ctxSet c n v = .ok c') :
    (∃ pre s post, c.scopes = pre ++ s :: post ∧ (∀ t ∈ pre, sLookup t n = none) ∧
      (sLookup s n).isSome ∧ c'.scopes = pre ++ sSet s n v :: post) ∧
    ctxGet c' n = .ok v ∧ (∀ m, m ≠ n → ctxGet c' m = ctxGet c m) := by
  induction c generalizing c' with
  | root s =>
    by_cases hm : sMem s n
    · rw [ctxSet, if_pos hm] at h
      cases h
      refine ⟨⟨[], s, [], by simp [CtxC.scopes], by simp, hm, by simp [CtxC.scopes]⟩, ?_, ?_⟩
      · simp [ctxGet, sSet_self]
      · intro m hm'
        simp [ctxGet, sSet_other s n m v hm']
    · rw [ctxSet, if_neg hm] at h
      cases h
  | node s p ih =>
    by_cases hm : sMem s n
    · rw [ctxSet, if_pos hm] at h
      cases h
      refine ⟨⟨[], s, p.scopes, by simp [CtxC.scopes], by simp, hm, by simp [CtxC.scopes]⟩, ?_, ?_⟩
      · simp [ctxGet, sSet_self]
      · intro m hm'
        simp [ctxGet, sSet_other s n m v hm']
    · rw [ctxSet, if_neg hm] at h
      cases hp : ctxSet p n v with
      | error e => rw [hp] at h; cases h
      | ok p' =>
        rw [hp] at h
        cases h
        obtain ⟨⟨pre, s0, post, hsc, hpre, hs0, hsc'⟩, hget, hother⟩ := ih p' hp
        have hsn : sLookup s n = none := sMem_false_lookup s n (by simpa using hm)
        refine ⟨⟨s :: pre, s0, post, by simp [CtxC.scopes, hsc],
          by simpa [hsn] using hpre, hs0, by simp [CtxC.scopes, hsc']⟩, ?_, ?_⟩
        · simp [ctxGet, hsn, hget]
        · intro m hm'
          cases hsm : sLookup s m <;> simp [ctxGet, hsm, hother m hm']

/-- `Ctx.__setitem__` on a name bound nowhere in the chain raises
`KeyError`. -/
theorem ctxSet_unbound (c : CtxC RVal) (n : String) (v : RVal)
    (h : c.scopes.findSome? (fun s => sLookup s n) = none) :
    ctxSet c n v = .error (.key ("Variável " ++ n ++ " não foi declarada")) := by
  induction c with
  | root s =>
    cases hs : sLookup s n with
    | some w => simp [CtxC.scopes, List.findSome?, hs] at h
    | none => rw [ctxSet, if_neg (by simp [sMem, hs])]
  | node s p ih =>
    cases hs : sLookup s n with
    | some w => simp [CtxC.scopes, List.findSome?_cons, hs] at h
    | none =>
      have h' : p.scopes.findSome? (fun t => sLookup t n) = none := by
        simpa [CtxC.scopes, List.findSome?_cons, hs] using h
      rw [ctxSet, if_neg (by simp [sMem, hs]), ih h']
      rfl

/-- `Ctx.__setitem__` on a name bound somewhere in the chain succeeds. -/
theorem ctxSet_bound (c : CtxC RVal) (n : String) (v : RVal)
    (h : (c.scopes.findSome? (fun s => sLookup s n)).isSome) :
    ∃ c', ctxSet c n v = .ok c' := by
  induction c with
  | root s =>
    cases hs : sLookup s n with
    | some w => exact ⟨.root (sSet s n v), by rw [ctxSet, if_pos (by simp [sMem, hs])]⟩
    | none => simp [CtxC.scopes, List.findSome?, hs] at h
  | node s p ih =>
    cases hs : sLookup s n with
    | some w => exact ⟨.node (sSet s n v) p, by rw [ctxSet, if_pos (by simp [sMem, hs])]⟩
    | none =>
      simp only [CtxC.scopes, List.findSome?_cons, hs] at h
      obtain ⟨p', hp⟩ := ih h
      exact ⟨.node s p', by rw [ctxSet, if_neg (by simp [sMem, hs]), hp]; rfl⟩

/-- C2: lookup from an environment returns the binding of the innermost
scope of the chain that defines the name; a successful assignment mutates
exactly that innermost defining scope (creating no binding anywhere), after
which the name reads as the new value from the environment and from every
descendant that does not shadow it, while all other names read as before;
and assignment to a name bound nowhere in the chain raises an error. -/
theorem C2_env_lookup_and_assign :
    (∀ (c : CtxC RVal) (n : String),
      ctxGet c n =
        match c.scopes.findSome? (fun s => sLookup s n) with
        | some v => .ok v
        | none => .error (.key ("Variável " ++ n ++ " não encontrada"))) ∧
    (∀ (c : CtxC RVal) (n : String) (v : RVal) (c' : CtxC RVal),
      ctxSet c n v = .ok c' →
      (∃ pre s post, c.scopes = pre ++ s :: post ∧ (∀ t ∈ pre, sLookup t n = none) ∧
        (sLookup s n).isSome ∧ c'.scopes = pre ++ sSet s n v :: post) ∧
      ctxGet c' n = .ok v ∧
      (∀ m, m ≠ n → ctxGet c' m = ctxGet c m) ∧
      (∀ ds : List (ScopeL RVal), (∀ t ∈ ds, sLookup t n = none) →
        ctxGet (pushAll ds c') n = .ok v)) ∧
    (∀ (c : CtxC RVal) (n : String) (v : RVal),
      c.scopes.findSome? (fun s => sLookup s n) = none →
      ctxSet c n v = .error (.key ("Variável " ++ n ++ " não foi declarada"))) ∧
    (∀ (c : CtxC RVal) (n : String) (v : RVal),
      (c.scopes.findSome? (fun s => sLookup s n)).isSome →
      ∃ c', ctxSet c n v = .ok c') := by
  refine ⟨ctxGet_char, ?_, ctxSet_unbound, ctxSet_bound⟩
  intro c n v c' h
  obtain ⟨hdec, hget, hother⟩ := ctxSet_ok c n v c' h
  exact ⟨hdec, hget, hother, fun ds hds => (pushAll_get ds c' n hds).trans hget⟩

/-- The parent link of a context. -/
def CtxC.parentOf {V : Type} : CtxC V → Option (CtxC V)
  | .root _ => none
  | .node _ p => some p

/-- C9: `var_def` always writes into the current scope only (the parent
chain is untouched); when the name already exists in the current scope of a
non-global context it raises an error; in the global context (and for a
fresh name anywhere) it succeeds, rebinding the name to the new value. -/
theorem C9_var_def (c : CtxC RVal) (k : String) (v : RVal) :
    (∀ c', ctxVarDef c k v = .ok c' →
      c'.scopeOf = sSet c.scopeOf k v ∧ c'.parentOf = c.parentOf ∧
      sLookup c'.scopeOf k = some v ∧
      ∀ m, m ≠ k → sLookup c'.scopeOf m = sLookup c.scopeOf m) ∧
    (sMem c.scopeOf k = true → c.isGlobal = false →
      ctxVarDef c k v =
        .error (.nameE ("Variável " ++ k ++ " já foi declarada neste escopo"))) ∧
    (c.isGlobal = true → ∃ c', ctxVarDef c k v = .ok c') ∧
    (sMem c.scopeOf k = false → ∃ c', ctxVarDef c k v = .ok c') := by
  refine ⟨?_, ?_, ?_, ?_⟩
  · intro c' h
    cases c with
    | root s =>
      rw [ctxVarDef] at h
      split_ifs at h with hcond
      cases h
      exact ⟨rfl, rfl, sSet_self s k v, fun m hm => sSet_other s k m v hm⟩
    | node s p =>
      rw [ctxVarDef] at h
      split_ifs at h with hcond
      cases h
      exact ⟨rfl, rfl, sSet_self s k v, fun m hm => sSet_other s k m v hm⟩
  · intro hmem hglob
    cases c with
    | root s =>
      rw [ctxVarDef, if_pos ⟨hmem, by simp [hglob]⟩]
    | node s p =>
      rw [ctxVarDef, if_pos ⟨hmem, by simp [hglob]⟩]
  · intro hglob
    cases c with
    | root s => simp [CtxC.isGlobal] at hglob
    | node s p =>
      refine ⟨.node (sSet s k v) p, ?_⟩
      rw [ctxVarDef, if_neg ?_]
      intro hc
      rw [hglob] at hc
      simp at hc
  · intro hmem
    cases c with
    | root s =>
      refine ⟨.root (sSet s k v), ?_⟩
      rw [ctxVarDef, if_neg ?_]
      intro hc
      simp only [CtxC.scopeOf] at hmem
      rw [hmem] at hc
      simp at hc
    | node s p =>
      refine ⟨.node (sSet s k v) p, ?_⟩
      rw [ctxVarDef, if_neg ?_]
      intro hc
      simp only [CtxC.scopeOf] at hmem
      rw [hmem] at hc
      simp at hc

/-- A global context (its parent is the builtins root) binding `x`. -/
def envG : CtxC RVal := .node [("x", .numV 1)] (.root [])

/-- A non-global block context, child of `envG`, also binding `x`. -/
def envL : CtxC RVal := .node [("x", .numV 1)] envG

/-- Witness for C9: redeclaring `x` in the block context errors;
redeclaring it at global scope rebinds it in the global scope only. -/
theorem C9_var_def_witness :
    ctxVarDef envL "x" (.numV 2) =
      .error (.nameE "Variável x já foi declarada neste escopo") ∧
    sLookup (CtxC.scopeOf (CtxC.node [("x", RVal.numV 2)] (.root []))) "x" =
      some (.numV 2) ∧
    CtxC.parentOf (CtxC.node [("x", RVal.numV 2)] (CtxC.root ([] : List (String × RVal)))) =
      CtxC.parentOf envG :=
  ⟨(C9_var_def envL "x" (.numV 2)).2.1 rfl rfl,
    ((C9_var_def envG "x" (.numV 2)).1 (.node [("x", .numV 2)] (.root [])) rfl).2.2.1,
    ((C9_var_def envG "x" (.numV 2)).1 (.node [("x", .numV 2)] (.root [])) rfl).2.1⟩

/-- The concrete environment of the C2 witness:
scopes `[x=1] :: [x=2, y=3] :: [z=4]`, innermost first. -/
def envW : CtxC RVal :=
  .node [("x", .numV 1)] (.node [("x", .numV 2), ("y", .numV 3)] (.root [("z", .numV 4)]))

/-- `envW` after `envW["y"] = 9`: only the middle scope, the innermost one
defining `y`, changed. -/
def envW9 : CtxC RVal :=
  .node [("x", .numV 1)] (.node [("x", .numV 2), ("y", .numV 9)] (.root [("z", .numV 4)]))

/-- Witness for C2 at `envW`: lookup finds the innermost `y`; after the
assignment `y` reads as the new value from the chain and from a
non-shadowing descendant, `x` is untouched, and assigning an unbound name
errors. -/
theorem C2_env_witness :
    ctxGet envW "y" = .ok (.numV 3) ∧
    ctxGet envW9 "y" = .ok (.numV 9) ∧
    ctxGet (pushAll [[("a", .numV 7)]] envW9) "y" = .ok (.numV 9) ∧
    ctxGet envW9 "x" = ctxGet envW "x" ∧
    ctxSet envW "w" (.numV 0) = .error (.key "Variável w não foi declarada") := by
  have h2 := C2_env_lookup_and_assign.2.1 envW "y" (.numV 9) envW9 rfl
  exact ⟨(C2_env_lookup_and_assign.1 envW "y").trans rfl,
    h2.2.1,
    h2.2.2.2 [[("a", .numV 7)]] (by simp [sLookup]),
    h2.2.2.1 "x" (by decide),
    C2_env_lookup_and_assign.2.2.1 envW "w" (.numV 0) rfl⟩

/-! ## The while statement (src/lox/ast.py lines 484-499) -/

/-- The condition `i > 0` of the countdown loop, as the runtime boolean the
comparison operator returns on the loop counter. -/
def countdownCond (s : Nat) : RVal := .boolV (decide (0 < s))

/-- The body `i = i - 1;` of the countdown loop, as its effect on the loop
counter. -/
def countdownBody (s : Nat) : Nat := s - 1

/-- C3: the claim says `While.eval` is iterative, consuming a
constant-bounded number of host stack frames. The code is self-recursive
(`self.eval(ctx)` once per iteration), so for every proposed frame bound
there is an iteration count — the countdown loop started at the bound
itself — that exhausts it (host `RecursionError`), while one extra frame
lets the same loop run to completion with the condition falsey: the
"repeat while truthy" semantics holds, but the frame consumption grows
linearly with the iteration count instead of being constant. -/
theorem C3_while_frames_unbounded :
    ∀ bound : Nat,
      whileEvalRec countdownCond countdownBody bound bound = .error .stackOverflow ∧
      whileEvalRec countdownCond countdownBody (bound + 1) bound = .ok 0 := by
  intro bound
  induction bound with
  | zero => exact ⟨rfl, rfl⟩
  | succ n ih =>
    constructor
    · rw [whileEvalRec, if_pos (by simp [countdownCond, rtTruthy])]
      simpa [countdownBody] using ih.1
    · rw [whileEvalRec, if_pos (by simp [countdownCond, rtTruthy])]
      simpa [countdownBody] using ih.2

/-! ## Equality, addition and division (src/lox/runtime.py) -/

/-- C6 counterexample: the claim says same-kind equality is structural, but
Python `==` on `LoxInstance` (no `__eq__`) is object identity: two
instances of the same class with identical (empty) field state — as
produced by two separate constructor calls — have the same runtime kind
yet compare unequal. -/
theorem C6_instance_eq_is_identity :
    pyType (.instP "A" [] 0) = pyType (.instP "A" [] 1) ∧
    OpLib.eq (.instP "A" [] 0) (.instP "A" [] 1) = false := ⟨rfl, rfl⟩

/-- C6 amended: `==` never raises and is type-stratified — different
runtime kinds always compare false with no coercion; same-kind comparison
is host `==`: structural for nil, booleans, numbers and strings, but host
object identity for instances, so two structurally identical instances can
compare unequal; `!=` is the exact negation; and the four spec particulars
hold (`0 == 0.0` compares two host floats, the transformer turning every
numeric literal into a float). -/
theorem C6_eq_type_stratified :
    (∀ l r : PyVal, pyType l ≠ pyType r → OpLib.eq l r = false) ∧
    (∀ a b : ℚ, OpLib.eq (.numP a) (.numP b) = decide (a = b)) ∧
    (∀ s t : String, OpLib.eq (.strP s) (.strP t) = (s == t)) ∧
    (∀ a b : Bool, OpLib.eq (.boolP a) (.boolP b) = (a == b)) ∧
    (OpLib.eq .noneP .noneP = true) ∧
    (∀ c1 f1 i1 c2 f2 i2, OpLib.eq (.instP c1 f1 i1) (.instP c2 f2 i2) = (i1 == i2)) ∧
    (∀ l r : PyVal, OpLib.ne l r = ! OpLib.eq l r) ∧
    (OpLib.eq (.numP 1) (.strP "1") = false ∧
      OpLib.eq .noneP (.boolP false) = false ∧
      OpLib.eq (.boolP true) (.boolP true) = true ∧
      OpLib.eq (.numP 0) (.numP 0) = true) := by
  refine ⟨?_, ?_, ?_, ?_, rfl, ?_, fun l r => rfl, ?_⟩
  · intro l r h
    simp [OpLib.eq, h]
  · intro a b
    simp [OpLib.eq, pyType, pyEqSame]
  · intro s t
    simp [OpLib.eq, pyType, pyEqSame]
  · intro a b
    simp [OpLib.eq, pyType, pyEqSame]
  · intro c1 f1 i1 c2 f2 i2
    simp [OpLib.eq, pyType, pyEqSame]
  · exact ⟨rfl, rfl, rfl, by decide⟩

/-- Witness for the amended C6 at a concrete cross-kind pair. -/
theorem C6_eq_type_stratified_witness :
    OpLib.eq (.numP 1) (.boolP true) = false :=
  C6_eq_type_stratified.1 (.numP 1) (.boolP true) (by decide)

/-- C7: `+` adds two numbers, concatenates two strings, and raises the
`LoxError` "Operands must be two numbers or two strings." on every other
combination — booleans are rejected up front, so they never count as
numbers. -/
theorem C7_add_overloading :
    (∀ a b : ℚ, OpLib.add (.numP a) (.numP b) = .ok (.numP (a + b))) ∧
    (∀ s t : String, OpLib.add (.strP s) (.strP t) = .ok (.strP (s ++ t))) ∧
    (∀ l r : PyVal, ¬(OpLib.isNum l = true ∧ OpLib.isNum r = true) →
      ¬(OpLib.isStr l = true ∧ OpLib.isStr r = true) →
      OpLib.add l r = .error (.lox "Operands must be two numbers or two strings.")) ∧
    (OpLib.add (.numP 1) (.strP "a") =
        .error (.lox "Operands must be two numbers or two strings.") ∧
      OpLib.add (.boolP true) (.numP 1) =
        .error (.lox "Operands must be two numbers or two strings.") ∧
      OpLib.add (.numP 1) (.numP 2) = .ok (.numP 3) ∧
      OpLib.add (.strP "a") (.strP "b") = .ok (.strP "ab")) := by
  refine ⟨fun a b => rfl, fun s t => rfl, ?_, rfl, rfl,
    by simp only [OpLib.add, OpLib.isBool]; norm_num, rfl⟩
  intro l r hn hs
  cases l <;> cases r <;>
    simp_all [OpLib.add, OpLib.isNum, OpLib.isStr, OpLib.isBool]

/-- Witness for C7 at a concrete rejected pair (nil plus number). -/
theorem C7_add_overloading_witness :
    OpLib.add .noneP (.numP 1) =
      .error (.lox "Operands must be two numbers or two strings.") :=
  C7_add_overloading.2.2.1 .noneP (.numP 1) (by decide) (by decide)

/-- C8: on two numeric operands, division raises the division-by-zero
`LoxError` exactly when the divisor equals zero — whatever the dividend —
and returns the quotient otherwise. -/
theorem C8_division_by_zero (a b : ℚ) :
    (b = 0 → OpLib.truediv (.numP a) (.numP b) = .error (.lox "Divisão por zero.")) ∧
    (b ≠ 0 → OpLib.truediv (.numP a) (.numP b) = .ok (.numP (a / b))) := by
  constructor
  · intro h
    simp [OpLib.truediv, OpLib.isBool, h]
  · intro h
    simp [OpLib.truediv, OpLib.isBool, h]

/-- Witness for C8: `1 / 0` and `-1 / 0` both raise, `1 / 2` divides. -/
theorem C8_division_by_zero_witness :
    OpLib.truediv (.numP 1) (.numP 0) = .error (.lox "Divisão por zero.") ∧
    OpLib.truediv (.numP (-1)) (.numP 0) = .error (.lox "Divisão por zero.") ∧
    OpLib.truediv (.numP 1) (.numP 2) = .ok (.numP (1 / 2)) :=
  ⟨(C8_division_by_zero 1 0).1 rfl,
    (C8_division_by_zero (-1) 0).1 rfl,
    (C8_division_by_zero 1 2).2 (by norm_num)⟩
